import Mathlib

/-!
Verification of the orchestration core of `afip_mis_retenciones.py`
(StudioAI_Mis_Retenciones).

The Python source is shallowly embedded below:
* calendar navigation (`navigate_calendar_to_date_with_arrows`) is modelled as
  a fuel-bounded recursion over an abstract stateful widget that exposes only a
  textual label and left/right stepping;
* date validation (`validar_rango_fecha`) re-implements Python's
  `strptime("%d/%m/%Y")` parsing and `datetime` comparison;
* the batch orchestrator (`scrape_mis_retenciones_batch`) is modelled as a pure
  function over an environment that abstracts the UI driver (login outcome and
  per-operation download outcome) and the checkpoint store, returning the run
  result together with the ordered list of persisted checkpoints;
* the export-correlation poll (`_wait_and_download_file`) is modelled over an
  attempt-indexed feed of first-row snapshots;
* `sanitize_secrets` re-implements Python's `str.replace` semantics
  (left-to-right, non-overlapping).

Strings are handled as Lean `String`/`List Char`; regex word characters are
modelled on the ASCII range (the labels and codes involved are ASCII).  Wall
clock values are abstracted: checkpoint timestamps come from the environment,
and the export/file timestamps used by the correlator are measured in integer
seconds (Python compares `abs(total_seconds()/60) <= 5`, which is equivalent to
`|Δseconds| <= 300`).
-/

/-! ## Generic string helpers (Python `in`, digit runs) -/

/-- Python's regex word character (`\w`), restricted to the ASCII range. -/
def isWordChar (c : Char) : Bool := c.isAlphanum || c = '_'

/-- Python's substring test `pat in hay`. -/
def str_contains (pat : List Char) : List Char → Bool
  | [] => pat.isEmpty
  | c :: t => pat.isPrefixOf (c :: t) || str_contains pat t

/-- Leading digit run of a character list (used to model `strptime` fields). -/
def spanDigits (l : List Char) : List Char × List Char :=
  (l.takeWhile Char.isDigit, l.dropWhile Char.isDigit)

/-- Numeric value of a digit run. -/
def digitsToNat (l : List Char) : Nat :=
  l.foldl (fun acc c => acc * 10 + (c.toNat - '0'.toNat)) 0

/-- Python's `str.split(sep)` for a single-character separator. -/
def splitOnChar (sep : Char) : List Char → List (List Char)
  | [] => [[]]
  | c :: t =>
    let r := splitOnChar sep t
    if c = sep then [] :: r
    else
      match r with
      | h :: t' => (c :: h) :: t'
      | [] => [[c]]

/-- Python's `str.strip()` (whitespace from both ends). -/
def pyStrip (l : List Char) : List Char :=
  ((l.dropWhile Char.isWhitespace).reverse.dropWhile Char.isWhitespace).reverse

/-! ## Calendar label parsing
(`navigate_calendar_to_date_with_arrows`, lines 236-343)

The source parses the year with `re.search(r'\b(20\d{2})\b', title)`, the
month by scanning a bilingual month-name table (dict insertion order:
English long form, Spanish long form, English 3-letter abbreviation, for each
month in order) for the first name contained in the lowercased title, and
falls back to `re.search(r'\b(0?[1-9]|1[0-2])\b', title)`. -/

/-- No word character on the left of the match (regex `\b` before a word
character; `prev` is the character preceding the candidate position). -/
def boundaryBefore (prev : Option Char) : Bool :=
  match prev with
  | none => true
  | some c => !isWordChar c

/-- No word character on the right of the match (regex `\b` after a word
character; `rest` is what follows the candidate match). -/
def boundaryAfter (rest : List Char) : Bool :=
  match rest with
  | [] => true
  | c :: _ => !isWordChar c

/-- Leftmost match of `\b(20\d{2})\b`: the parsed year, tracking the previous
character for the left boundary. -/
def year_search (prev : Option Char) : List Char → Option Nat
  | [] => none
  | c1 :: rest1 =>
    match rest1 with
    | c2 :: c3 :: c4 :: rest2 =>
      if boundaryBefore prev && c1 = '2' && c2 = '0' && c3.isDigit && c4.isDigit
          && boundaryAfter rest2 then
        some (2000 + 10 * (c3.toNat - '0'.toNat) + (c4.toNat - '0'.toNat))
      else year_search (some c1) rest1
    | _ => none

/-- The `month_map` of the source in Python dict insertion order
(for each month: English name, Spanish name, 3-letter abbreviation; the
duplicate key "may" keeps its first position). -/
def month_map : List (String × Nat) :=
  [("january", 1), ("enero", 1), ("jan", 1),
   ("february", 2), ("febrero", 2), ("feb", 2),
   ("march", 3), ("marzo", 3), ("mar", 3),
   ("april", 4), ("abril", 4), ("apr", 4),
   ("may", 5), ("mayo", 5),
   ("june", 6), ("junio", 6), ("jun", 6),
   ("july", 7), ("julio", 7), ("jul", 7),
   ("august", 8), ("agosto", 8), ("aug", 8),
   ("september", 9), ("septiembre", 9), ("sep", 9),
   ("october", 10), ("octubre", 10), ("oct", 10),
   ("november", 11), ("noviembre", 11), ("nov", 11),
   ("december", 12), ("diciembre", 12), ("dec", 12)]

/-- First month name of `month_map` contained in the lowercased title. -/
def month_name_search (titleLower : List Char) : Option Nat :=
  month_map.findSome? fun kv =>
    if str_contains kv.1.data titleLower then some kv.2 else none

/-- Leftmost match of `\b(0?[1-9]|1[0-2])\b` (numeric month fallback), with
Python's leftmost-first alternation and greedy `0?`. -/
def month_number_search (prev : Option Char) : List Char → Option Nat
  | [] => none
  | c :: rest =>
    if boundaryBefore prev && c = '0' then
      match rest with
      | d :: rest2 =>
        if '1' ≤ d && d ≤ '9' && boundaryAfter rest2 then
          some (d.toNat - '0'.toNat)
        else month_number_search (some c) rest
      | [] => none
    else if boundaryBefore prev && '1' ≤ c && c ≤ '9' then
      if boundaryAfter rest then
        some (c.toNat - '0'.toNat)
      else if c = '1' then
        match rest with
        | d :: rest2 =>
          if '0' ≤ d && d ≤ '2' && boundaryAfter rest2 then
            some (10 + (d.toNat - '0'.toNat))
          else month_number_search (some c) rest
        | [] => none
      else month_number_search (some c) rest
    else month_number_search (some c) rest

/-- Parse a calendar title into `(year, month)` exactly as the loop body does:
year first (failure is a `ValueError`), then month by name, then the numeric
fallback (failure again a `ValueError`). -/
def parse_calendar_title (title : List Char) : Option (Nat × Nat) :=
  match year_search none title with
  | none => none
  | some y =>
    match month_name_search (title.map Char.toLower) with
    | some m => some (y, m)
    | none =>
      match month_number_search none title with
      | some m => some (y, m)
      | none => none

/-! ## The arrow-navigation loop -/

/-- Direction of a `.vc-arrow` click. -/
inductive ArrowDir where
  | left
  | right
deriving DecidableEq

/-- Result of `navigate_calendar_to_date_with_arrows`: the loop either returns
`True` or raises `TimeoutError` (every other exception in the body is caught
by the generic handler). -/
inductive NavResult where
  | success
  | navTimeout
deriving DecidableEq

/-- The v-calendar widget as seen by the loop: a current label (read from
`.vc-title`) and relative stepping (arrow clicks). -/
structure CalendarWidget (σ : Type) where
  label : σ → List Char
  step : σ → ArrowDir → σ

/-- Observable outcome of one navigation call: result, number of arrow clicks
issued, number of loop iterations performed, and the final widget state. -/
structure NavOutcome (σ : Type) where
  res : NavResult
  clicks : Nat
  attempts : Nat
  final : σ
deriving DecidableEq

/-- One-to-one embedding of the `while attempts < max_attempts` loop, with
`fuel` the number of remaining iterations.  An unparseable label raises a
`ValueError` that the `except` block catches: no arrow is clicked and the loop
retries (raising `TimeoutError` once the attempt budget is exhausted, which
coincides with running out of fuel). -/
def navGoAux {σ : Type} (w : CalendarWidget σ) (targetYear targetMonth : Nat) :
    Nat → σ → NavOutcome σ
  | 0, s => ⟨.navTimeout, 0, 0, s⟩
  | fuel + 1, s =>
    match parse_calendar_title (w.label s) with
    | none =>
      let o := navGoAux w targetYear targetMonth fuel s
      ⟨o.res, o.clicks, o.attempts + 1, o.final⟩
    | some (y, m) =>
      if y == targetYear && m == targetMonth then
        ⟨.success, 0, 1, s⟩
      else
        let dir := if y * 12 + m > targetYear * 12 + targetMonth
          then ArrowDir.left else ArrowDir.right
        let o := navGoAux w targetYear targetMonth fuel (w.step s dir)
        ⟨o.res, o.clicks + 1, o.attempts + 1, o.final⟩

/-- `navigate_calendar_to_date_with_arrows` with its fixed bound
`max_attempts = 36`. -/
def navigate_calendar_to_date_with_arrows {σ : Type} (w : CalendarWidget σ)
    (targetYear targetMonth : Nat) (s : σ) : NavOutcome σ :=
  navGoAux w targetYear targetMonth 36 s

/-! ## Dates (`validar_rango_fecha`, lines 128-142)

`datetime.strptime(s, "%d/%m/%Y")`: day and month are 1-2 digit fields, the
year a 1-4 digit field, separated by literal slashes with nothing left over;
`datetime` construction then validates the ranges (including day against the
Gregorian month length).  `desde > hasta` is the field-lexicographic
comparison of the resulting dates. -/

structure SimpleDate where
  year : Nat
  month : Nat
  day : Nat
deriving DecidableEq

/-- Gregorian leap year. -/
def is_leap (y : Nat) : Bool := y % 4 = 0 && (y % 100 ≠ 0 || y % 400 = 0)

/-- Length of a month. -/
def days_in_month (y m : Nat) : Nat :=
  if m = 2 then (if is_leap y then 29 else 28)
  else if m = 4 || m = 6 || m = 9 || m = 11 then 30
  else 31

/-- Raw `%d/%m/%Y` field extraction: day and month are 1-2 digit runs, the
year exactly 4 digits (CPython compiles `%Y` to `\d\d\d\d`), with nothing
left over.  (`%d` also admits a space-padded single digit, `" 1"`; that
alternative is not modelled — such inputs fall into the same
format-`ValueError` branch wherever this parser is used.) -/
def parse_date_fields (cs : List Char) : Option (Nat × Nat × Nat) :=
  let (ds, r1) := spanDigits cs
  if ds.length = 0 || ds.length > 2 then none else
  match r1 with
  | '/' :: r2 =>
    let (ms, r3) := spanDigits r2
    if ms.length = 0 || ms.length > 2 then none else
    match r3 with
    | '/' :: r4 =>
      let (ys, r5) := spanDigits r4
      if ys.length ≠ 4 || !r5.isEmpty then none
      else some (digitsToNat ds, digitsToNat ms, digitsToNat ys)
    | _ => none
  | _ => none

/-- `datetime` range validation (`MINYEAR = 1`; a 4-digit year is within
`MAXYEAR = 9999` automatically). -/
def mk_date (d m y : Nat) : Option SimpleDate :=
  if 1 ≤ y && 1 ≤ m && m ≤ 12 && 1 ≤ d && d ≤ days_in_month y m then
    some ⟨y, m, d⟩
  else none

/-- `datetime.strptime(s, "%d/%m/%Y")`, `none` standing for `ValueError`. -/
def strptime_dmY (s : String) : Option SimpleDate :=
  match parse_date_fields s.data with
  | some (d, m, y) => mk_date d m y
  | none => none

/-- `datetime` comparison `desde > hasta` (field-lexicographic). -/
def date_after (a b : SimpleDate) : Bool :=
  a.year > b.year ||
    (a.year = b.year && (a.month > b.month ||
      (a.month = b.month && a.day > b.day)))

/-- `validar_rango_fecha(fecha_desde, fecha_hasta)`, returning
`(es_valido, mensaje_error)`. -/
def validar_rango_fecha (fecha_desde fecha_hasta : String) : Bool × String :=
  match strptime_dmY fecha_desde, strptime_dmY fecha_hasta with
  | some desde, some hasta =>
    if date_after desde hasta then
      (false, "La fecha \x27desde\x27 no puede ser posterior a la fecha \x27hasta\x27")
    else (true, "")
  | _, _ => (false, "Formato de fecha inválido. Use dd/mm/yyyy")

/-! ## The tax-type catalog (`TAX_TYPES`, lines 65-104) -/

structure TaxTypeConfig where
  code : String
  name : String
  category : String
  operation_mode : String
deriving DecidableEq

def TAX_TYPES : List TaxTypeConfig :=
  [⟨"IMP_172", "172 - IMPUESTO TRANSF DE INMUEBLES", "Impositivas", "retencion"⟩,
   ⟨"IMP_216", "216 - SIRE - IVA", "Impositivas", "retencion"⟩,
   ⟨"IMP_217", "217 - SICORE-IMPTO.A LAS GANANCIAS", "Impositivas", "ambas"⟩,
   ⟨"IMP_218", "218 - IMP.A LAS GAN.- BENEF.DEL EXT.", "Impositivas", "retencion"⟩,
   ⟨"IMP_219", "219 - SICORE-IMPTO.S/ BS PERSONALES", "Impositivas", "ambas_separadas"⟩,
   ⟨"IMP_222", "222 - DONACIONES Y OTRO TIPO DE LIB.", "Impositivas", "retencion"⟩,
   ⟨"IMP_466", "466 - SICORE-PREMIOS JUEGOS Y C.DEP", "Impositivas", "retencion"⟩,
   ⟨"IMP_767", "767 - SICORE - RETENCIONES Y PERCEPC", "Impositivas", "ambas"⟩,
   ⟨"IMP_787", "787 - RET ART 79 LEY GCIAS INC A,ByC", "Impositivas", "retencion"⟩,
   ⟨"IMP_939", "939 - PERCEPCION IMPUESTO PAIS", "Impositivas", "percepcion"⟩,
   ⟨"SS_353", "353 - RETENCIONES CONTRIB.SEG.SOCIAL", "Seguridad Social", "ambas"⟩,
   ⟨"ADU_217", "217 - SICORE-IMPTO.A LAS GANANCIAS", "Aduaneras", "fecha_solo"⟩,
   ⟨"ADU_767", "767 - SICORE - RETENCIONES Y PERCEPC", "Aduaneras", "fecha_solo"⟩,
   ⟨"SIR_216", "216 - SIRE - IVA", "Certificados SIRE", "retencion"⟩,
   ⟨"SIR_218", "218 - IMP.A LAS GAN.- BENEF.DEL EXT.", "Certificados SIRE", "retencion"⟩,
   ⟨"SIR_353", "353 - RETENCIONES CONTRIB.SEG.SOCIAL", "Certificados SIRE", "ambas"⟩]

/-- The `operations_to_run` dispatch on `operation_mode` (appears identically
in the single and in the batch scraper); each entry is
`(op_value, op_name)` with `op_value = None` for `fecha_solo`. -/
def operations_to_run (mode : String) : List (Option String × String) :=
  if mode = "retencion" then [(some "1", "Retención")]
  else if mode = "percepcion" then [(some "2", "Percepción")]
  else if mode = "ambas" then [(some "0", "Retención y percepción")]
  else if mode = "ambas_separadas" then
    [(some "1", "Retención"), (some "2", "Percepción")]
  else if mode = "fecha_solo" then [(none, "Solo fecha")]
  else []

/-! ## Checkpoints (`BatchProgress`, `save_checkpoint`, `load_checkpoint`,
`find_latest_checkpoint`, lines 345-406) -/

structure BatchProgress where
  session_id : String
  cuit_login : String
  cuit_target : String
  fecha_desde : String
  fecha_hasta : String
  started_at : String
  completed_tax_codes : List String
  current_tax_code : Option String
  all_downloaded_files : List String
  status : String
  last_updated : String
deriving DecidableEq

/-- `find_latest_checkpoint`: the argument is the list of `load_checkpoint`
results for the checkpoint files sorted newest-first (`None` for an unreadable
file); the loop returns the first loaded record whose status is
`"in_progress"`. -/
def find_latest_checkpoint : List (Option BatchProgress) → Option BatchProgress
  | [] => none
  | r :: rest =>
    match r with
    | some progress =>
      if progress.status = "in_progress" then some progress
      else find_latest_checkpoint rest
    | none => find_latest_checkpoint rest

/-! ## The batch orchestrator (`scrape_mis_retenciones_batch`, lines 1144-1346)

External effects are abstracted into an environment: `load` is the checkpoint
store (`load_checkpoint`), `freshId` the generated `uuid` session id, `nowStr`
the wall clock used by `save_checkpoint`/`now_ts`, `loginOk` the outcome of
session establishment (login, opening MIS RETENCIONES, selecting the CUIT —
the only code region whose exceptions escape to the outer handler), and
`opResult tax_code op_value` the outcome of one form-fill/export/download
operation (`some path` on success; `none` when the operation raised and the
per-operation `except` logged it and moved on). -/

structure BatchEnv where
  load : String → Option BatchProgress
  freshId : String
  nowStr : String
  loginOk : Bool
  opResult : String → Option String → Option String

/-- `save_checkpoint`: refresh `last_updated`, then persist (the persisted
snapshot is returned; the caller keeps using the same mutated record). -/
def persist (env : BatchEnv) (p : BatchProgress) : BatchProgress :=
  { p with last_updated := env.nowStr }

/-- The fresh `BatchProgress` created when not resuming (lines 1180-1196). -/
def fresh_progress (env : BatchEnv)
    (cuit_login cuit_target fecha_desde fecha_hasta : String) : BatchProgress :=
  { session_id := env.freshId
    cuit_login := cuit_login
    cuit_target := cuit_target
    fecha_desde := fecha_desde
    fecha_hasta := fecha_hasta
    started_at := env.nowStr
    completed_tax_codes := []
    current_tax_code := none
    all_downloaded_files := []
    status := "in_progress"
    last_updated := env.nowStr }

/-- Output of the inner per-operation loop: final in-memory record and the
checkpoints persisted along the way. -/
structure OpsOut where
  final : BatchProgress
  saves : List BatchProgress

/-- The `for op_value, op_name in operations_to_run` loop of one tax type:
on success the downloaded path is appended to `all_downloaded_files` and a
checkpoint is persisted; on failure the exception is caught and the loop
continues with the next operation. -/
def process_operations (env : BatchEnv) (code : String) :
    List (Option String × String) → BatchProgress → OpsOut
  | [], p => ⟨p, []⟩
  | (op, _) :: rest, p =>
    match env.opResult code op with
    | some path =>
      let p' := persist env
        { p with all_downloaded_files := p.all_downloaded_files ++ [path] }
      let o := process_operations env code rest p'
      ⟨o.final, p' :: o.saves⟩
    | none => process_operations env code rest p

/-- Output of the per-tax-type loop: final record, persisted checkpoints, and
the codes actually processed (not skipped), in processing order. -/
structure ItemsOut where
  final : BatchProgress
  saves : List BatchProgress
  processed : List String

/-- Lines 1242-1244: mark the item in flight (`current_tax_code`) and
persist. -/
def item_current_record (env : BatchEnv) (t : TaxTypeConfig)
    (p : BatchProgress) : BatchProgress :=
  persist env { p with current_tax_code := some t.code }

/-- Lines 1301-1304 applied after the item's operation loop: append the code
to `completed_tax_codes`, clear `current_tax_code` and persist. -/
def item_completed_record (env : BatchEnv) (t : TaxTypeConfig)
    (p : BatchProgress) : BatchProgress :=
  persist env
    { (process_operations env t.code (operations_to_run t.operation_mode)
        (item_current_record env t p)).final with
      completed_tax_codes :=
        (process_operations env t.code (operations_to_run t.operation_mode)
          (item_current_record env t p)).final.completed_tax_codes ++ [t.code]
      current_tax_code := none }

/-- The `for idx, tax_config in enumerate(TAX_TYPES, 1)` loop: skip codes
already in `completed_tax_codes`; otherwise set `current_tax_code`, persist,
run the operations, then append the code to `completed_tax_codes`, clear
`current_tax_code` and persist. -/
def process_tax_types (env : BatchEnv) :
    List TaxTypeConfig → BatchProgress → ItemsOut
  | [], p => ⟨p, [], []⟩
  | t :: rest, p =>
    if p.completed_tax_codes.contains t.code then
      process_tax_types env rest p
    else
      ⟨(process_tax_types env rest (item_completed_record env t p)).final,
       item_current_record env t p ::
         ((process_operations env t.code (operations_to_run t.operation_mode)
            (item_current_record env t p)).saves ++
          item_completed_record env t p ::
            (process_tax_types env rest (item_completed_record env t p)).saves),
       t.code ::
         (process_tax_types env rest (item_completed_record env t p)).processed⟩

/-- The value returned by `scrape_mis_retenciones_batch` on success. -/
structure BatchResult where
  session_id : String
  files : List String
  completed_count : Nat
  total_count : Nat
deriving DecidableEq

/-- Observable behaviour of one `scrape_mis_retenciones_batch` call:
the returned value or raised error, the checkpoints persisted in order, the
progress record in effect after the resume-or-create step (`none` when
validation failed before that step), whether browser/portal session work was
started, and the codes processed (not skipped) in order. -/
structure BatchRun where
  result : Except String BatchResult
  saves : List BatchProgress
  initialProgress : Option BatchProgress
  sessionOpened : Bool
  processed : List String

/-- The resume-or-create step (lines 1169-1196): load the checkpoint when a
resume id is given; fall back to a freshly created (and immediately persisted)
record when nothing was loaded.  Returns the record in effect and the
checkpoints persisted by this step. -/
def batch_initial_progress (env : BatchEnv)
    (cuit_login cuit_target fecha_desde fecha_hasta : String)
    (resume_session_id : Option String) : BatchProgress × List BatchProgress :=
  match (match resume_session_id with
         | some sid => env.load sid
         | none => none) with
  | some p => (p, [])
  | none =>
    (persist env
      (fresh_progress env cuit_login cuit_target fecha_desde fecha_hasta),
     [persist env
      (fresh_progress env cuit_login cuit_target fecha_desde fecha_hasta)])

/-- The `except` handler of lines 1331-1335: mark the record `"error"` and
persist it, preserving all progress. -/
def batch_error_record (env : BatchEnv) (p : BatchProgress) : BatchProgress :=
  persist env { p with status := "error" }

/-- Lines 1310-1311: mark the record `"completed"` and persist it. -/
def batch_completed_record (env : BatchEnv) (p : BatchProgress) : BatchProgress :=
  persist env { p with status := "completed" }

/-- Everything after validation: resume-or-create, session establishment
(fatal on failure: the error record is persisted and the exception
re-raised), the per-tax-type loop, final status `"completed"`. -/
def scrape_batch_main (env : BatchEnv)
    (cuit_login cuit_target fecha_desde fecha_hasta : String)
    (resume_session_id : Option String) : BatchRun :=
  if !env.loginOk then
    ⟨.error "login",
     (batch_initial_progress env cuit_login cuit_target fecha_desde
        fecha_hasta resume_session_id).2 ++
       [batch_error_record env (batch_initial_progress env cuit_login
          cuit_target fecha_desde fecha_hasta resume_session_id).1],
     some (batch_initial_progress env cuit_login cuit_target fecha_desde
        fecha_hasta resume_session_id).1,
     true, []⟩
  else
    ⟨.ok ⟨(process_tax_types env TAX_TYPES (batch_initial_progress env
            cuit_login cuit_target fecha_desde fecha_hasta
            resume_session_id).1).final.session_id,
          (batch_completed_record env (process_tax_types env TAX_TYPES
            (batch_initial_progress env cuit_login cuit_target fecha_desde
              fecha_hasta resume_session_id).1).final).all_downloaded_files,
          (batch_completed_record env (process_tax_types env TAX_TYPES
            (batch_initial_progress env cuit_login cuit_target fecha_desde
              fecha_hasta resume_session_id).1).final).completed_tax_codes.length,
          TAX_TYPES.length⟩,
     (batch_initial_progress env cuit_login cuit_target fecha_desde
        fecha_hasta resume_session_id).2 ++
       (process_tax_types env TAX_TYPES (batch_initial_progress env
          cuit_login cuit_target fecha_desde fecha_hasta
          resume_session_id).1).saves ++
       [batch_completed_record env (process_tax_types env TAX_TYPES
          (batch_initial_progress env cuit_login cuit_target fecha_desde
            fecha_hasta resume_session_id).1).final],
     some (batch_initial_progress env cuit_login cuit_target fecha_desde
        fecha_hasta resume_session_id).1,
     true,
     (process_tax_types env TAX_TYPES (batch_initial_progress env cuit_login
        cuit_target fecha_desde fecha_hasta resume_session_id).1).processed⟩

/-- `scrape_mis_retenciones_batch`: validation first (lines 1163-1167, a
`ValueError` raised before any checkpoint or session work), then the main
body. -/
def scrape_mis_retenciones_batch (env : BatchEnv)
    (cuit_login _clave cuit_target fecha_desde fecha_hasta : String)
    (resume_session_id : Option String) : BatchRun :=
  if !(validar_rango_fecha fecha_desde fecha_hasta).1 then
    ⟨.error (validar_rango_fecha fecha_desde fecha_hasta).2, [], none,
     false, []⟩
  else
    scrape_batch_main env cuit_login cuit_target fecha_desde fecha_hasta
      resume_session_id

/-! ## Single-tax scraper (`scrape_mis_retenciones`, lines 1004-1130)

Only its control flow up to and including the operation loop is needed:
validation, tax-config lookup (`TAX_TYPES_DICT.get`; codes in `TAX_TYPES` are
pairwise distinct so dict lookup is `find?`), then — with the browser session
opened — one export per operation.  Unlike the batch loop, a failed operation
is not caught here and aborts the call. -/

structure SingleRun where
  result : Except String (List String)
  sessionOpened : Bool

/-- The operation loop of the single scraper (no per-operation handler). -/
def run_operations_single (env : BatchEnv) (code : String) :
    List (Option String × String) → Except String (List String)
  | [] => .ok []
  | (op, _) :: rest =>
    match env.opResult code op with
    | some path =>
      match run_operations_single env code rest with
      | .ok fs => .ok (path :: fs)
      | .error e => .error e
    | none => .error "DownloadTimeout"

def scrape_mis_retenciones (env : BatchEnv)
    (_cuit_login _clave _cuit_target tax_code fecha_desde fecha_hasta : String) :
    SingleRun :=
  if !(validar_rango_fecha fecha_desde fecha_hasta).1 then
    ⟨.error (validar_rango_fecha fecha_desde fecha_hasta).2, false⟩
  else
    match TAX_TYPES.find? (fun t => t.code == tax_code) with
    | none => ⟨.error ("Tipo de impuesto inválido: " ++ tax_code), false⟩
    | some cfg =>
      ⟨run_operations_single env cfg.code (operations_to_run cfg.operation_mode),
       true⟩

/-! ## Export correlation (`_wait_and_download_file`, lines 831-1002)

Each polling attempt reads the first (newest) row of the "Consultas
exportadas" table; the three cell texts are `filtros`, `estado` and
`fechaTimestamp` (empty when the cell read failed).  The matching predicate of
lines 915-944: the tax number must occur in `filtros`, `"Finalizado"` in
`estado`, and the timestamp — `strptime("%d/%m/%Y %H:%M")` of the stripped
cell text (exactly four year digits, format whitespace matching `\s+`) —
must be within 5 minutes of the export trigger time, a non-empty unparseable
timestamp counting as recent (optimistic fallback) and an empty one as not
recent.  `export_time` is modelled in integer seconds on the same
epoch as the parsed timestamps. -/

structure ExportRow where
  filtros : String
  estado : String
  fechaTimestamp : String
deriving DecidableEq

/-- `tax_code.split("_")[1] if "_" in tax_code else tax_code`. -/
def tax_number_of (tax_code : String) : String :=
  match splitOnChar '_' tax_code.data with
  | _ :: second :: _ => ⟨second⟩
  | _ => tax_code

structure SimpleDateTime where
  date : SimpleDate
  hour : Nat
  minute : Nat
deriving DecidableEq

/-- Raw `%d/%m/%Y %H:%M` field extraction.  CPython compiles this format to
`d/m/\d\d\d\d\s+H:M`: day, month, hour and minute are 1-2 digit runs, the
year exactly 4 digits, and the space of the format matches a non-empty run of
whitespace (`\s+`).  (`%d`'s space-padded single-digit alternative cannot
occur at this parser's only call site, since the cell text is stripped
first.) -/
def parse_datetime_fields (cs : List Char) :
    Option (Nat × Nat × Nat × Nat × Nat) :=
  let (ds, r1) := spanDigits cs
  if ds.length = 0 || ds.length > 2 then none else
  match r1 with
  | '/' :: r2 =>
    let (ms, r3) := spanDigits r2
    if ms.length = 0 || ms.length > 2 then none else
    match r3 with
    | '/' :: r4 =>
      let (ys, r5) := spanDigits r4
      if ys.length ≠ 4 then none else
      if (r5.takeWhile Char.isWhitespace).length = 0 then none else
      let (hs, r7) := spanDigits (r5.dropWhile Char.isWhitespace)
      if hs.length = 0 || hs.length > 2 then none else
      match r7 with
      | ':' :: r8 =>
        let (mins, r9) := spanDigits r8
        if mins.length = 0 || mins.length > 2 || !r9.isEmpty then none
        else some (digitsToNat ds, digitsToNat ms, digitsToNat ys,
                   digitsToNat hs, digitsToNat mins)
      | _ => none
    | _ => none
  | _ => none

/-- `datetime.strptime(s, "%d/%m/%Y %H:%M")`, `none` for `ValueError`. -/
def strptime_dmY_HM (s : String) : Option SimpleDateTime :=
  match parse_datetime_fields s.data with
  | some (d, m, y, h, mi) =>
    if h ≤ 23 && mi ≤ 59 then
      match mk_date d m y with
      | some date => some ⟨date, h, mi⟩
      | none => none
    else none
  | none => none

/-- Leap years among `1..n`. -/
def leap_count (n : Nat) : Nat := n / 4 - n / 100 + n / 400

/-- Days in months `1..m-1` of year `y`. -/
def days_before_month (y m : Nat) : Nat :=
  ((List.range (m - 1)).map (fun k => days_in_month y (k + 1))).sum

/-- Days from 01/01/0001 (proleptic Gregorian, as `datetime` uses). -/
def days_from_year1 (d : SimpleDate) : Nat :=
  365 * (d.year - 1) + leap_count (d.year - 1)
    + days_before_month d.year d.month + (d.day - 1)

/-- Minutes from the 01/01/0001 00:00 epoch. -/
def minutes_of (t : SimpleDateTime) : Nat :=
  (days_from_year1 t.date * 24 + t.hour) * 60 + t.minute

/-- The `is_recent` computation of lines 924-939 (`export_time_sec` in
seconds on the same epoch; `abs(total_seconds()/60) <= 5` is
`|Δseconds| <= 300`). -/
def is_recent_check (export_time_sec : Int) (timestamp_text : String) : Bool :=
  if timestamp_text = "" then false
  else
    match strptime_dmY_HM ⟨pyStrip timestamp_text.data⟩ with
    | some t => (export_time_sec - (minutes_of t : Int) * 60).natAbs ≤ 300
    | none => true

/-- `has_tax`: the tax number occurs in a non-empty `filtros` cell. -/
def row_has_tax (tax_number : String) (r : ExportRow) : Bool :=
  if r.filtros = "" then false
  else str_contains tax_number.data r.filtros.data

/-- `is_finalizado`: `"Finalizado"` occurs in a non-empty `estado` cell. -/
def row_is_finalizado (r : ExportRow) : Bool :=
  if r.estado = "" then false
  else str_contains "Finalizado".data r.estado.data

def row_is_recent (export_time_sec : Int) (r : ExportRow) : Bool :=
  is_recent_check export_time_sec r.fechaTimestamp

/-- Line 944: `has_tax and is_finalizado and is_recent`. -/
def row_matches (export_time_sec : Int) (tax_number : String)
    (r : ExportRow) : Bool :=
  row_has_tax tax_number r && row_is_finalizado r
    && row_is_recent export_time_sec r

/-- The polling loop: `feed n` is the first-row snapshot at attempt `n`
(`none` when the table has no rows), `fuel` the remaining attempts.  Returns
the attempt at which a matching row was found and its artifact downloaded, or
`none` for the final `TimeoutError`.  (The download itself is abstracted as
succeeding; transient download failures only consume further attempts.) -/
def wait_download_loop (feed : Nat → Option ExportRow) (export_time_sec : Int)
    (tax_number : String) : Nat → Nat → Option Nat
  | _, 0 => none
  | attempt, fuel + 1 =>
    match feed attempt with
    | none => wait_download_loop feed export_time_sec tax_number (attempt + 1) fuel
    | some r =>
      if row_matches export_time_sec tax_number r then some attempt
      else wait_download_loop feed export_time_sec tax_number (attempt + 1) fuel

/-- `_wait_and_download_file` with its attempt budget
`max_attempts = max_wait_minutes * 6`. -/
def wait_and_download_file (feed : Nat → Option ExportRow)
    (export_time_sec : Int) (tax_code : String) (max_wait_minutes : Nat) :
    Option Nat :=
  wait_download_loop feed export_time_sec (tax_number_of tax_code) 1
    (max_wait_minutes * 6)

/-! ## `sanitize_secrets` (lines 40-44)

Python's `str.replace` scans left to right and replaces non-overlapping
occurrences; `pyReplaceFuel` is that scan with an explicit fuel (instantiated
with the string length, enough for the whole scan) so that it computes by
kernel reduction. -/

def pyReplaceFuel (pat rep : List Char) : Nat → List Char → List Char
  | 0, s => s
  | _ + 1, [] => []
  | fuel + 1, c :: t =>
    if pat.isPrefixOf (c :: t) then
      rep ++ pyReplaceFuel pat rep fuel (t.drop (pat.length - 1))
    else
      c :: pyReplaceFuel pat rep fuel t

/-- `s.replace(pat, rep)` for a non-empty `pat`. -/
def pyReplace (pat rep s : List Char) : List Char :=
  pyReplaceFuel pat rep s.length s

/-- `sanitize_secrets(message, clave)`: replace the clave by `"****"` when it
is non-empty. -/
def sanitize_secrets (message clave : String) : String :=
  if clave ≠ "" then ⟨pyReplace clave.data "****".data message.data⟩
  else message

/-! ## Concrete fixtures used by witnesses and counterexamples -/

/-- A widget already showing the target month (label `"Marzo 2024"`). -/
def marzoWidget : CalendarWidget Unit :=
  ⟨fun _ => "Marzo 2024".data, fun s _ => s⟩

/-- A widget whose label never parses (no 4-digit `20xx` token). -/
def badLabelWidget : CalendarWidget Unit :=
  ⟨fun _ => "Calendario".data, fun s _ => s⟩

/-- A mid-batch checkpoint: two tax types done, one artifact collected. -/
def c1_p0 : BatchProgress :=
  ⟨"oldsess", "20111111112", "20222222223", "01/01/2024", "31/12/2024", "T0",
   ["IMP_172", "IMP_216"], none, ["a.csv"], "in_progress", "T0"⟩

def c1_env : BatchEnv :=
  ⟨fun sid => if sid = "s0" then some c1_p0 else none, "freshA", "T1", true,
   fun code op => some (code ++ "_" ++ op.getD "x" ++ ".csv")⟩

/-- A checkpoint whose status is terminal (`"error"`), with every tax type
already completed. -/
def c2_p0 : BatchProgress :=
  ⟨"oldsess", "20111111112", "20222222223", "01/01/2024", "31/12/2024", "T0",
   ["IMP_172", "IMP_216", "IMP_217", "IMP_218", "IMP_219", "IMP_222",
    "IMP_466", "IMP_767", "IMP_787", "IMP_939", "SS_353", "ADU_217",
    "ADU_767", "SIR_216", "SIR_218", "SIR_353"], none, ["a.csv"], "error", "T0"⟩

def c2_env : BatchEnv :=
  ⟨fun sid => if sid = "s2" then some c2_p0 else none, "freshB", "T1", true,
   fun _ _ => some "f.csv"⟩

/-- An environment whose checkpoint store is empty. -/
def c2_env_none : BatchEnv :=
  ⟨fun _ => none, "freshC", "T1", true, fun _ _ => some "f.csv"⟩

def c8_env : BatchEnv :=
  ⟨fun _ => none, "freshD", "T1", true, fun _ _ => some "f.csv"⟩

/-- Latest checkpoint on disk carries status `"error"`. -/
def c9_perr : BatchProgress :=
  ⟨"errsess", "20111111112", "20222222223", "01/01/2024", "31/12/2024", "T0",
   ["IMP_172"], none, ["a.csv"], "error", "T0"⟩

def c9_pin : BatchProgress :=
  ⟨"livesess", "20111111112", "20222222223", "01/01/2024", "31/12/2024", "T0",
   [], none, [], "in_progress", "T0"⟩

def c9_env : BatchEnv :=
  ⟨fun sid => if sid = "s9" then some c9_perr else none, "freshE", "T1", false,
   fun _ _ => some "f.csv"⟩

/-- A first row that is tagged and ready but 69 minutes older than the export
trigger time (outside the 5-minute window). -/
def c6_stale_row : ExportRow :=
  ⟨"Impuesto: 217", "Finalizado", "15/11/2025 19:51"⟩

/-- Export triggered at 15/11/2025 21:00 (in epoch seconds). -/
def c6_export_sec : Int := (minutes_of ⟨⟨2025, 11, 15⟩, 21, 0⟩ : Nat) * 60

/-! ## Checkpoint invariants (spec §3, claim C8) -/

/-- `current_tax_code` is either none or a code not yet in
`completed_tax_codes`. -/
def ckpt_inv (p : BatchProgress) : Bool :=
  match p.current_tax_code with
  | none => true
  | some c => !(p.completed_tax_codes.contains c)

/-- `completed_tax_codes` only grows between two records. -/
def completed_grows (a b : BatchProgress) : Prop :=
  a.completed_tax_codes <+: b.completed_tax_codes

/-! ## Navigation lemmas and claims C3, C4, C5 -/

/-- Invariant of the navigation loop: clicks and iterations are bounded by the
fuel, and the loop only returns success when the label it last read parsed to
the target. -/
theorem navGoAux_spec {σ : Type} (w : CalendarWidget σ) (ty tm : Nat) :
    ∀ (fuel : Nat) (s : σ),
      (navGoAux w ty tm fuel s).clicks ≤ fuel ∧
      (navGoAux w ty tm fuel s).attempts ≤ fuel ∧
      ((navGoAux w ty tm fuel s).res = NavResult.navTimeout ∨
       ((navGoAux w ty tm fuel s).res = NavResult.success ∧
        parse_calendar_title (w.label (navGoAux w ty tm fuel s).final) =
          some (ty, tm))) := by
  intro fuel
  induction fuel with
  | zero => intro s; simp [navGoAux]
  | succ n ih =>
    intro s
    rw [navGoAux]
    cases hp : parse_calendar_title (w.label s) with
    | none =>
      obtain ⟨h1, h2, h3⟩ := ih s
      exact ⟨Nat.le_succ_of_le h1, Nat.succ_le_succ h2, h3⟩
    | some ym =>
      obtain ⟨y, m⟩ := ym
      dsimp only
      by_cases heq : (y == ty && m == tm) = true
      · rw [if_pos heq]
        simp only [Bool.and_eq_true, beq_iff_eq] at heq
        exact ⟨Nat.zero_le _, Nat.succ_le_succ (Nat.zero_le _),
          Or.inr ⟨rfl, by rw [hp, heq.1, heq.2]⟩⟩
      · rw [if_neg heq]
        obtain ⟨h1, h2, h3⟩ := ih (w.step s (if y * 12 + m > ty * 12 + tm
          then ArrowDir.left else ArrowDir.right))
        exact ⟨Nat.succ_le_succ h1, Nat.succ_le_succ h2, h3⟩

/-- C3: for every target (year, month) and every widget (hence every sequence
of labels the widget can show), `navigate_calendar_to_date_with_arrows` issues
at most 36 arrow clicks, and when it does not reach a state whose label parses
to the target within its 36 iterations it ends in `TimeoutError`
(`navTimeout`) instead of looping further. -/
theorem c3_arrow_navigation_bounded {σ : Type} (w : CalendarWidget σ)
    (targetYear targetMonth : Nat) (s : σ) :
    (navigate_calendar_to_date_with_arrows w targetYear targetMonth s).clicks ≤ 36 ∧
    (navigate_calendar_to_date_with_arrows w targetYear targetMonth s).attempts ≤ 36 ∧
    ((navigate_calendar_to_date_with_arrows w targetYear targetMonth s).res =
        NavResult.navTimeout ∨
     ((navigate_calendar_to_date_with_arrows w targetYear targetMonth s).res =
        NavResult.success ∧
      parse_calendar_title (w.label
        (navigate_calendar_to_date_with_arrows w targetYear targetMonth s).final) =
        some (targetYear, targetMonth))) :=
  navGoAux_spec w targetYear targetMonth 36 s

/-- One successful-at-once unfolding of the loop. -/
theorem navGoAux_succ_at_target {σ : Type} (w : CalendarWidget σ)
    (ty tm fuel : Nat) (s : σ)
    (h : parse_calendar_title (w.label s) = some (ty, tm)) :
    navGoAux w ty tm (fuel + 1) s = ⟨NavResult.success, 0, 1, s⟩ := by
  rw [navGoAux, h]
  simp

/-- C4: if the first label read already parses to the target (year, month),
the call returns success after that single read, with zero arrow clicks. -/
theorem c4_idempotent_at_target {σ : Type} (w : CalendarWidget σ)
    (targetYear targetMonth : Nat) (s : σ)
    (h : parse_calendar_title (w.label s) = some (targetYear, targetMonth)) :
    navigate_calendar_to_date_with_arrows w targetYear targetMonth s =
      ⟨NavResult.success, 0, 1, s⟩ := by
  unfold navigate_calendar_to_date_with_arrows
  rw [show (36 : Nat) = 35 + 1 from rfl]
  exact navGoAux_succ_at_target w targetYear targetMonth 35 s h

theorem c4_witness :
    parse_calendar_title (marzoWidget.label ()) = some (2024, 3) ∧
    navigate_calendar_to_date_with_arrows marzoWidget 2024 3 () =
      ⟨NavResult.success, 0, 1, ()⟩ :=
  ⟨by decide, c4_idempotent_at_target marzoWidget 2024 3 () (by decide)⟩

/-- An unparseable label leaves the state untouched (the `ValueError` is
caught before any arrow click), so the loop burns all its fuel re-reading. -/
theorem navGoAux_unparseable {σ : Type} (w : CalendarWidget σ) (ty tm : Nat)
    (s : σ) (h : parse_calendar_title (w.label s) = none) :
    ∀ fuel, navGoAux w ty tm fuel s = ⟨NavResult.navTimeout, 0, fuel, s⟩ := by
  intro fuel
  induction fuel with
  | zero => rw [navGoAux]
  | succ n ih => rw [navGoAux, h, ih]

/-- C5 counterexample: on a widget whose label never parses (no year token),
the call does NOT fail immediately with a `LabelParseError`: it performs all
36 iterations (each parse failure is caught by the generic `except` handler)
and then raises `TimeoutError`.  The claimed immediate-fatal behaviour would
have stopped after the first iteration. -/
theorem c5_counterexample :
    navigate_calendar_to_date_with_arrows badLabelWidget 2024 3 () =
      ⟨NavResult.navTimeout, 0, 36, ()⟩ ∧
    (navigate_calendar_to_date_with_arrows badLabelWidget 2024 3 ()).attempts ≠ 1 := by
  constructor
  · decide
  · decide

/-- C5 (amended): when the current label cannot be parsed, the raised
`ValueError` is caught by the loop's generic handler: no arrow click is issued
for that attempt and the read is retried; if the label never parses the call
exhausts its 36 attempts and raises `TimeoutError` — it never guesses a
position (zero clicks). -/
theorem c5_parse_failure_retried_not_fatal {σ : Type} (w : CalendarWidget σ)
    (targetYear targetMonth : Nat) (s : σ)
    (h : parse_calendar_title (w.label s) = none) :
    navigate_calendar_to_date_with_arrows w targetYear targetMonth s =
      ⟨NavResult.navTimeout, 0, 36, s⟩ :=
  navGoAux_unparseable w targetYear targetMonth s h 36

theorem c5_witness :
    parse_calendar_title (badLabelWidget.label ()) = none ∧
    navigate_calendar_to_date_with_arrows badLabelWidget 2024 3 () =
      ⟨NavResult.navTimeout, 0, 36, ()⟩ :=
  ⟨by decide, c5_parse_failure_retried_not_fatal badLabelWidget 2024 3 () (by decide)⟩

/-! ## Claim C7: invalid date range rejected before any session work -/

/-- C7: whenever the start date parses later than the end date, both
`scrape_mis_retenciones` and `scrape_mis_retenciones_batch` raise the
`ValueError` produced by `validar_rango_fecha` before any browser/portal work
(no session opened, no checkpoint persisted for a fresh run) — the call ends
there, so the rejection is never retried. -/
theorem c7_bad_range_rejected_before_session (env : BatchEnv)
    (cuit_login clave cuit_target tax_code fecha_desde fecha_hasta : String)
    (resume : Option String) (d h : SimpleDate)
    (hd : strptime_dmY fecha_desde = some d)
    (hh : strptime_dmY fecha_hasta = some h)
    (hafter : date_after d h = true) :
    (validar_rango_fecha fecha_desde fecha_hasta).1 = false ∧
    scrape_mis_retenciones env cuit_login clave cuit_target tax_code
        fecha_desde fecha_hasta =
      ⟨.error (validar_rango_fecha fecha_desde fecha_hasta).2, false⟩ ∧
    scrape_mis_retenciones_batch env cuit_login clave cuit_target
        fecha_desde fecha_hasta resume =
      ⟨.error (validar_rango_fecha fecha_desde fecha_hasta).2, [], none,
       false, []⟩ := by
  have hv : validar_rango_fecha fecha_desde fecha_hasta =
      (false,
       "La fecha \x27desde\x27 no puede ser posterior a la fecha \x27hasta\x27") := by
    unfold validar_rango_fecha
    rw [hd, hh]
    simp [hafter]
  refine ⟨by rw [hv], ?_, ?_⟩
  · unfold scrape_mis_retenciones
    rw [hv]
    simp
  · unfold scrape_mis_retenciones_batch
    rw [hv]
    simp

theorem c7_witness :
    (validar_rango_fecha "02/01/2024" "01/01/2024").1 = false ∧
    scrape_mis_retenciones ⟨fun _ => none, "f", "T", true, fun _ _ => none⟩
        "cl" "cv" "ct" "IMP_217" "02/01/2024" "01/01/2024" =
      ⟨.error (validar_rango_fecha "02/01/2024" "01/01/2024").2, false⟩ ∧
    scrape_mis_retenciones_batch ⟨fun _ => none, "f", "T", true, fun _ _ => none⟩
        "cl" "cv" "ct" "02/01/2024" "01/01/2024" none =
      ⟨.error (validar_rango_fecha "02/01/2024" "01/01/2024").2, [], none,
       false, []⟩ :=
  c7_bad_range_rejected_before_session
    ⟨fun _ => none, "f", "T", true, fun _ _ => none⟩
    "cl" "cv" "ct" "IMP_217" "02/01/2024" "01/01/2024" none
    ⟨2024, 1, 2⟩ ⟨2024, 1, 1⟩ (by decide) (by decide) (by decide)

/-! ## Correlator lemmas and claim C6 -/

/-- Soundness of the polling loop: a download can only happen at an attempt
whose first row satisfies the matching predicate. -/
theorem wait_download_loop_sound (feed : Nat → Option ExportRow) (tSec : Int)
    (taxNum : String) :
    ∀ (fuel attempt k : Nat),
      wait_download_loop feed tSec taxNum attempt fuel = some k →
      ∃ r, feed k = some r ∧ row_matches tSec taxNum r = true := by
  intro fuel
  induction fuel with
  | zero =>
    intro a k h
    rw [wait_download_loop] at h
    exact absurd h (Option.noConfusion)
  | succ n ih =>
    intro a k h
    rw [wait_download_loop] at h
    cases hf : feed a with
    | none =>
      rw [hf] at h
      exact ih _ _ h
    | some r =>
      simp only [hf] at h
      by_cases hm : row_matches tSec taxNum r = true
      · rw [if_pos hm] at h
        obtain rfl : a = k := Option.some.inj h
        exact ⟨r, hf, hm⟩
      · rw [if_neg hm] at h
        exact ih _ _ h

/-- If no attempt ever shows a matching first row, the loop exhausts the
budget (`TimeoutError`). -/
theorem wait_download_loop_no_match (feed : Nat → Option ExportRow)
    (tSec : Int) (taxNum : String)
    (hall : ∀ a r, feed a = some r → row_matches tSec taxNum r = false) :
    ∀ (fuel attempt : Nat),
      wait_download_loop feed tSec taxNum attempt fuel = none := by
  intro fuel
  induction fuel with
  | zero => intro a; rw [wait_download_loop]
  | succ n ih =>
    intro a
    rw [wait_download_loop]
    cases hf : feed a with
    | none => exact ih _
    | some r =>
      show (if row_matches tSec taxNum r = true then some a
        else wait_download_loop feed tSec taxNum (a + 1) n) = none
      rw [if_neg]
      · exact ih _
      · rw [hall a r hf]
        exact Bool.false_ne_true

/-- C6: `_wait_and_download_file` downloads only at an attempt whose first
row is tagged (`has_tax`), terminal-ready (`is_finalizado`) and recent
(`is_recent`); a first row that is tagged and ready but whose parsed timestamp
lies more than the 5-minute tolerance from the export trigger time is not
matched and a feed that keeps showing it times out; a non-empty unparseable
timestamp counts as recent. -/
theorem c6_correlation_matching :
    (∀ (feed : Nat → Option ExportRow) (tSec : Int) (tax_code : String)
       (mw k : Nat),
       wait_and_download_file feed tSec tax_code mw = some k →
       ∃ r, feed k = some r ∧
         row_has_tax (tax_number_of tax_code) r = true ∧
         row_is_finalizado r = true ∧
         row_is_recent tSec r = true) ∧
    (∀ (r : ExportRow) (tSec : Int) (tax_code : String) (t : SimpleDateTime),
       row_has_tax (tax_number_of tax_code) r = true →
       row_is_finalizado r = true →
       strptime_dmY_HM ⟨pyStrip r.fechaTimestamp.data⟩ = some t →
       300 < (tSec - (minutes_of t : Int) * 60).natAbs →
       row_matches tSec (tax_number_of tax_code) r = false ∧
       ∀ mw, wait_and_download_file (fun _ => some r) tSec tax_code mw = none) ∧
    (∀ (r : ExportRow) (tSec : Int), r.fechaTimestamp ≠ "" →
       strptime_dmY_HM ⟨pyStrip r.fechaTimestamp.data⟩ = none →
       row_is_recent tSec r = true) := by
  refine ⟨?_, ?_, ?_⟩
  · intro feed tSec tax_code mw k h
    obtain ⟨r, hr, hm⟩ := wait_download_loop_sound feed tSec
      (tax_number_of tax_code) (mw * 6) 1 k h
    rw [row_matches, Bool.and_eq_true, Bool.and_eq_true] at hm
    exact ⟨r, hr, hm.1.1, hm.1.2, hm.2⟩
  · intro r tSec tax_code t htax hfin hts hfar
    have hne : r.fechaTimestamp ≠ "" := by
      intro he
      rw [he] at hts
      have hnone : strptime_dmY_HM ⟨pyStrip ("" : String).data⟩ = none := rfl
      rw [hnone] at hts
      exact Option.noConfusion hts
    have hrec : row_is_recent tSec r = false := by
      rw [row_is_recent, is_recent_check, if_neg hne, hts]
      simp only [decide_eq_false_iff_not]
      omega
    have hm : row_matches tSec (tax_number_of tax_code) r = false := by
      rw [row_matches, hrec, Bool.and_false]
    refine ⟨hm, fun mw => ?_⟩
    exact wait_download_loop_no_match (fun _ => some r) tSec
      (tax_number_of tax_code)
      (fun a r' hr' => by rw [← Option.some.inj hr']; exact hm) (mw * 6) 1
  · intro r tSec hne hts
    rw [row_is_recent, is_recent_check, if_neg hne, hts]

theorem c6_witness :
    row_matches c6_export_sec (tax_number_of "IMP_217") c6_stale_row = false ∧
    wait_and_download_file (fun _ => some c6_stale_row) c6_export_sec
      "IMP_217" 10 = none := by
  have h := c6_correlation_matching.2.1 c6_stale_row c6_export_sec "IMP_217"
    ⟨⟨2025, 11, 15⟩, 19, 51⟩ (by decide) (by decide) (by decide) (by decide)
  exact ⟨h.1, h.2 10⟩

/-! ## `sanitize_secrets` lemmas and claim C10 -/

/-- A star-free prefix of the replacement output is a prefix of the input:
the scan only ever prepends original characters or `'*'` blocks. -/
theorem starfree_prefix_of_replace (pat : List Char) :
    ∀ (fuel : Nat) (x t : List Char), '*' ∉ x →
      x <+: pyReplaceFuel pat "****".data fuel t → x <+: t := by
  intro fuel
  induction fuel with
  | zero =>
    intro x t _ h
    rw [pyReplaceFuel] at h
    exact h
  | succ n ih =>
    intro x t hx h
    cases t with
    | nil =>
      rw [pyReplaceFuel] at h
      exact h
    | cons c t' =>
      rw [pyReplaceFuel] at h
      by_cases hp : pat.isPrefixOf (c :: t') = true
      · rw [if_pos hp] at h
        cases x with
        | nil => exact List.nil_prefix
        | cons a x' =>
          rw [show ("****".data : List Char) = '*' :: "***".data from rfl,
            List.cons_append, List.cons_prefix_cons] at h
          obtain ⟨ha, -⟩ := h
          subst ha
          exact absurd (List.mem_cons_self _ _) hx
      · rw [if_neg hp] at h
        cases x with
        | nil => exact List.nil_prefix
        | cons a x' =>
          rw [List.cons_prefix_cons] at h
          obtain ⟨ha, h'⟩ := h
          subst ha
          have hx' : '*' ∉ x' := fun hm => hx (List.mem_cons_of_mem _ hm)
          exact List.cons_prefix_cons.mpr ⟨rfl, ih x' t' hx' h'⟩

/-- A non-empty pattern cannot begin at a masked position. -/
theorem pat_not_prefix_of_star (pat : List Char) (hpat : pat ≠ [])
    (hstar : '*' ∉ pat) (l : List Char) : ¬ pat <+: '*' :: l := by
  intro hl
  cases pat with
  | nil => exact hpat rfl
  | cons a p' =>
    rw [List.cons_prefix_cons] at hl
    obtain ⟨ha, -⟩ := hl
    subst ha
    exact hstar (List.mem_cons_self _ _)

/-- Core secrecy property of Python's `replace`: when the pattern contains no
`'*'`, the output contains no occurrence of the pattern at all. -/
theorem replace_no_occurrence (pat : List Char) (hpat : pat ≠ [])
    (hstar : '*' ∉ pat) :
    ∀ (fuel : Nat) (t : List Char), t.length ≤ fuel →
      ¬ pat <:+: pyReplaceFuel pat "****".data fuel t := by
  intro fuel
  induction fuel with
  | zero =>
    intro t hle h
    rw [List.length_eq_zero.mp (Nat.le_zero.mp hle)] at h
    rw [pyReplaceFuel] at h
    exact hpat (List.infix_nil.mp h)
  | succ n ih =>
    intro t hle h
    cases t with
    | nil =>
      rw [pyReplaceFuel] at h
      exact hpat (List.infix_nil.mp h)
    | cons c t' =>
      have hle' : t'.length ≤ n := Nat.le_of_succ_le_succ (by simpa using hle)
      rw [pyReplaceFuel] at h
      by_cases hp : pat.isPrefixOf (c :: t') = true
      · rw [if_pos hp] at h
        rw [show ("****".data : List Char) = '*' :: '*' :: '*' :: '*' :: [] from rfl] at h
        simp only [List.cons_append, List.nil_append, List.infix_cons_iff] at h
        rcases h with h | h | h | h | h
        · exact pat_not_prefix_of_star pat hpat hstar _ h
        · exact pat_not_prefix_of_star pat hpat hstar _ h
        · exact pat_not_prefix_of_star pat hpat hstar _ h
        · exact pat_not_prefix_of_star pat hpat hstar _ h
        · exact ih _ (Nat.le_trans (by rw [List.length_drop]; exact Nat.sub_le _ _) hle') h
      · rw [if_neg hp] at h
        rw [List.infix_cons_iff] at h
        rcases h with h | h
        · cases pat with
          | nil => exact hpat rfl
          | cons a p' =>
            rw [List.cons_prefix_cons] at h
            obtain ⟨ha, h'⟩ := h
            have hs' : '*' ∉ p' := fun hm => hstar (List.mem_cons_of_mem _ hm)
            have hpre : (a :: p').isPrefixOf (c :: t') = true :=
              List.isPrefixOf_iff_prefix.mpr
                (List.cons_prefix_cons.mpr
                  ⟨ha, starfree_prefix_of_replace _ n p' t' hs' h'⟩)
            exact hp hpre
        · exact ih t' hle' h

/-- `replace` is the identity when the pattern does not occur. -/
theorem replace_of_no_occurrence (pat rep : List Char) :
    ∀ (fuel : Nat) (t : List Char), ¬ pat <:+: t →
      pyReplaceFuel pat rep fuel t = t := by
  intro fuel
  induction fuel with
  | zero => intro t _; rw [pyReplaceFuel]
  | succ n ih =>
    intro t hno
    cases t with
    | nil => rw [pyReplaceFuel]
    | cons c t' =>
      rw [List.infix_cons_iff, not_or] at hno
      rw [pyReplaceFuel, if_neg, ih t' hno.2]
      intro hp
      exact hno.1 (List.isPrefixOf_iff_prefix.mp hp)

/-- C10 counterexample: for a secret containing the mask character `'*'`, the
output of `sanitize_secrets` can contain a fresh occurrence of the secret —
`"**aa".replace("*a", "****")` is `"*****a"`, which contains `"*a"` — so the
claim "the returned string contains no occurrence of the secret" fails as
stated for arbitrary non-empty secrets. -/
theorem c10_counterexample :
    sanitize_secrets "**aa" "*a" = "*****a" ∧
    ("*a" : String).data <:+: (sanitize_secrets "**aa" "*a").data := by
  constructor
  · rfl
  · decide

/-- C10 (amended): `sanitize_secrets` replaces occurrences of the clave
left-to-right, non-overlapping (Python `str.replace`).  For every non-empty
clave that does not contain the mask character `'*'`, the result contains no
occurrence of the clave; content without any occurrence — account identifiers
such as CUITs in particular — is returned verbatim. -/
theorem c10_sanitize_star_free_secret (message clave : String)
    (h1 : clave ≠ "") (h2 : '*' ∉ clave.data) :
    ¬ clave.data <:+: (sanitize_secrets message clave).data ∧
    (¬ clave.data <:+: message.data → sanitize_secrets message clave = message) := by
  have hnil : clave.data ≠ [] := fun hc => h1 (congrArg String.mk hc)
  constructor
  · rw [sanitize_secrets, if_pos h1]
    exact replace_no_occurrence clave.data hnil h2 message.data.length
      message.data (Nat.le_refl _)
  · intro hno
    rw [sanitize_secrets, if_pos h1]
    show (⟨pyReplace clave.data "****".data message.data⟩ : String) = message
    rw [pyReplace, replace_of_no_occurrence clave.data "****".data
      message.data.length message.data hno]

theorem c10_witness :
    (¬ ("clave123" : String).data <:+:
       (sanitize_secrets "login con clave123 para 20123456789" "clave123").data) ∧
    (¬ ("clave123" : String).data <:+: ("cuit 20123456789" : String).data →
       sanitize_secrets "cuit 20123456789" "clave123" = "cuit 20123456789") :=
  ⟨(c10_sanitize_star_free_secret "login con clave123 para 20123456789"
      "clave123" (by decide) (by decide)).1,
   (c10_sanitize_star_free_secret "cuit 20123456789" "clave123"
      (by decide) (by decide)).2⟩

/-! ## Batch orchestrator lemmas -/

theorem string_contains_iff_mem (l : List String) (a : String) :
    l.contains a = true ↔ a ∈ l := by
  simp [List.contains, List.elem_eq_mem]

theorem contains_append_singleton (l : List String) (a c : String)
    (h : a ≠ c) : (l ++ [c]).contains a = l.contains a := by
  induction l with
  | nil => simp [h]
  | cons b l ih => simp only [List.cons_append, List.contains_cons, ih]

theorem ckpt_inv_of_none {p : BatchProgress}
    (h : p.current_tax_code = none) : ckpt_inv p = true := by
  rw [ckpt_inv, h]

theorem ckpt_inv_of_some {p : BatchProgress} {c : String}
    (h : p.current_tax_code = some c) :
    ckpt_inv p = !(p.completed_tax_codes.contains c) := by
  rw [ckpt_inv, h]

/-- The operation loop leaves `completed_tax_codes` and `current_tax_code`
untouched and only appends to `all_downloaded_files`. -/
theorem process_operations_final_spec (env : BatchEnv) (code : String) :
    ∀ (ops : List (Option String × String)) (p : BatchProgress),
      (process_operations env code ops p).final.completed_tax_codes =
        p.completed_tax_codes ∧
      (process_operations env code ops p).final.current_tax_code =
        p.current_tax_code ∧
      p.all_downloaded_files <+:
        (process_operations env code ops p).final.all_downloaded_files := by
  intro ops
  induction ops with
  | nil => exact fun p => ⟨rfl, rfl, List.prefix_rfl⟩
  | cons op rest ih =>
    intro p
    obtain ⟨o, nm⟩ := op
    cases ho : env.opResult code o with
    | some path =>
      have hred : process_operations env code ((o, nm) :: rest) p =
          ⟨(process_operations env code rest (persist env { p with
              all_downloaded_files := p.all_downloaded_files ++ [path] })).final,
           persist env { p with
              all_downloaded_files := p.all_downloaded_files ++ [path] } ::
            (process_operations env code rest (persist env { p with
              all_downloaded_files := p.all_downloaded_files ++ [path] })).saves⟩ := by
        rw [process_operations, ho]
      rw [hred]
      obtain ⟨h1, h2, h3⟩ := ih (persist env { p with
        all_downloaded_files := p.all_downloaded_files ++ [path] })
      exact ⟨h1, h2, List.IsPrefix.trans (List.prefix_append _ _) h3⟩
    | none =>
      have hred : process_operations env code ((o, nm) :: rest) p =
          process_operations env code rest p := by
        rw [process_operations, ho]
      rw [hred]
      exact ih p

/-- Every checkpoint persisted by the operation loop carries the same
`completed_tax_codes` and `current_tax_code` as its input and extends its
input's `all_downloaded_files`. -/
theorem process_operations_saves_spec (env : BatchEnv) (code : String) :
    ∀ (ops : List (Option String × String)) (p : BatchProgress),
      ∀ q ∈ (process_operations env code ops p).saves,
        q.completed_tax_codes = p.completed_tax_codes ∧
        q.current_tax_code = p.current_tax_code ∧
        p.all_downloaded_files <+: q.all_downloaded_files := by
  intro ops
  induction ops with
  | nil => intro p q hq; exact absurd hq (List.not_mem_nil q)
  | cons op rest ih =>
    intro p
    obtain ⟨o, nm⟩ := op
    cases ho : env.opResult code o with
    | some path =>
      have hred : process_operations env code ((o, nm) :: rest) p =
          ⟨(process_operations env code rest (persist env { p with
              all_downloaded_files := p.all_downloaded_files ++ [path] })).final,
           persist env { p with
              all_downloaded_files := p.all_downloaded_files ++ [path] } ::
            (process_operations env code rest (persist env { p with
              all_downloaded_files := p.all_downloaded_files ++ [path] })).saves⟩ := by
        rw [process_operations, ho]
      rw [hred]
      intro q hq
      rcases List.mem_cons.mp hq with rfl | hq'
      · exact ⟨rfl, rfl, List.prefix_append _ _⟩
      · obtain ⟨h1, h2, h3⟩ := ih (persist env { p with
          all_downloaded_files := p.all_downloaded_files ++ [path] }) q hq'
        exact ⟨h1, h2, List.IsPrefix.trans (List.prefix_append _ _) h3⟩
    | none =>
      have hred : process_operations env code ((o, nm) :: rest) p =
          process_operations env code rest p := by
        rw [process_operations, ho]
      rw [hred]
      exact ih p

/-- Consecutive checkpoints of the operation loop never lose completed
codes. -/
theorem process_operations_chain (env : BatchEnv) (code : String) :
    ∀ (ops : List (Option String × String)) (p : BatchProgress),
      List.Chain' completed_grows
        (p :: (process_operations env code ops p).saves) := by
  intro ops
  induction ops with
  | nil => exact fun p => List.chain'_singleton p
  | cons op rest ih =>
    intro p
    obtain ⟨o, nm⟩ := op
    cases ho : env.opResult code o with
    | some path =>
      have hred : process_operations env code ((o, nm) :: rest) p =
          ⟨(process_operations env code rest (persist env { p with
              all_downloaded_files := p.all_downloaded_files ++ [path] })).final,
           persist env { p with
              all_downloaded_files := p.all_downloaded_files ++ [path] } ::
            (process_operations env code rest (persist env { p with
              all_downloaded_files := p.all_downloaded_files ++ [path] })).saves⟩ := by
        rw [process_operations, ho]
      rw [hred]
      exact List.chain'_cons.mpr ⟨List.prefix_rfl, ih _⟩
    | none =>
      have hred : process_operations env code ((o, nm) :: rest) p =
          process_operations env code rest p := by
        rw [process_operations, ho]
      rw [hred]
      exact ih p

/-- The last record of input-then-saves is the loop's final record. -/
theorem process_operations_getLast (env : BatchEnv) (code : String) :
    ∀ (ops : List (Option String × String)) (p : BatchProgress),
      (p :: (process_operations env code ops p).saves).getLast? =
        some (process_operations env code ops p).final := by
  intro ops
  induction ops with
  | nil => exact fun p => rfl
  | cons op rest ih =>
    intro p
    obtain ⟨o, nm⟩ := op
    cases ho : env.opResult code o with
    | some path =>
      have hred : process_operations env code ((o, nm) :: rest) p =
          ⟨(process_operations env code rest (persist env { p with
              all_downloaded_files := p.all_downloaded_files ++ [path] })).final,
           persist env { p with
              all_downloaded_files := p.all_downloaded_files ++ [path] } ::
            (process_operations env code rest (persist env { p with
              all_downloaded_files := p.all_downloaded_files ++ [path] })).saves⟩ := by
        rw [process_operations, ho]
      rw [hred, List.getLast?_cons_cons]
      exact ih _
    | none =>
      have hred : process_operations env code ((o, nm) :: rest) p =
          process_operations env code rest p := by
        rw [process_operations, ho]
      rw [hred]
      exact ih p

/-- Reduction: an already-completed code is skipped. -/
theorem ptt_skip (env : BatchEnv) (t : TaxTypeConfig) (rest : List TaxTypeConfig)
    (p : BatchProgress) (h : p.completed_tax_codes.contains t.code = true) :
    process_tax_types env (t :: rest) p = process_tax_types env rest p := by
  rw [process_tax_types, if_pos h]

/-- Reduction: a not-yet-completed code is processed. -/
theorem ptt_go (env : BatchEnv) (t : TaxTypeConfig) (rest : List TaxTypeConfig)
    (p : BatchProgress) (h : p.completed_tax_codes.contains t.code = false) :
    process_tax_types env (t :: rest) p =
      ⟨(process_tax_types env rest (item_completed_record env t p)).final,
       item_current_record env t p ::
         ((process_operations env t.code (operations_to_run t.operation_mode)
            (item_current_record env t p)).saves ++
          item_completed_record env t p ::
            (process_tax_types env rest (item_completed_record env t p)).saves),
       t.code ::
         (process_tax_types env rest (item_completed_record env t p)).processed⟩ := by
  rw [process_tax_types, if_neg]
  rw [h]
  exact Bool.false_ne_true

/-- The per-item loop appends exactly the processed codes, in order, to
`completed_tax_codes`. -/
theorem process_tax_types_final_completed (env : BatchEnv) :
    ∀ (ts : List TaxTypeConfig) (p : BatchProgress),
      (process_tax_types env ts p).final.completed_tax_codes =
        p.completed_tax_codes ++ (process_tax_types env ts p).processed := by
  intro ts
  induction ts with
  | nil => intro p; exact (List.append_nil _).symm
  | cons t rest ih =>
    intro p
    cases hc : p.completed_tax_codes.contains t.code with
    | true => rw [ptt_skip env t rest p hc]; exact ih p
    | false =>
      rw [ptt_go env t rest p hc]
      dsimp only
      rw [ih (item_completed_record env t p)]
      rw [show (item_completed_record env t p).completed_tax_codes =
        (process_operations env t.code (operations_to_run t.operation_mode)
          (item_current_record env t p)).final.completed_tax_codes ++ [t.code]
        from rfl]
      rw [(process_operations_final_spec env t.code
        (operations_to_run t.operation_mode) (item_current_record env t p)).1]
      rw [show (item_current_record env t p).completed_tax_codes =
        p.completed_tax_codes from rfl]
      rw [List.append_assoc, List.singleton_append]

/-- When the catalog's codes are pairwise distinct, the processed codes are
exactly the catalog codes not in the initial `completed_tax_codes`, in
catalog order. -/
theorem process_tax_types_processed (env : BatchEnv) :
    ∀ (ts : List TaxTypeConfig) (p : BatchProgress),
      (ts.map (fun t => t.code)).Nodup →
      (process_tax_types env ts p).processed =
        (ts.filter (fun t => !(p.completed_tax_codes.contains t.code))).map
          (fun t => t.code) := by
  intro ts
  induction ts with
  | nil => intro p _; rfl
  | cons t rest ih =>
    intro p hnd
    rw [List.map_cons, List.nodup_cons] at hnd
    cases hc : p.completed_tax_codes.contains t.code with
    | true =>
      rw [ptt_skip env t rest p hc, List.filter_cons_of_neg]
      · exact ih p hnd.2
      · rw [hc]
        exact Bool.false_ne_true
    | false =>
      rw [ptt_go env t rest p hc]
      dsimp only
      rw [List.filter_cons_of_pos (by rw [hc]; rfl), List.map_cons]
      rw [ih (item_completed_record env t p) hnd.2]
      congr 1
      apply congrArg (List.map (fun t : TaxTypeConfig => t.code))
      apply List.filter_congr
      intro x hx
      have hne : x.code ≠ t.code := by
        intro he
        exact hnd.1 (he ▸ List.mem_map_of_mem (fun t => t.code) hx)
      rw [show (item_completed_record env t p).completed_tax_codes =
        (process_operations env t.code (operations_to_run t.operation_mode)
          (item_current_record env t p)).final.completed_tax_codes ++ [t.code]
        from rfl]
      rw [(process_operations_final_spec env t.code
        (operations_to_run t.operation_mode) (item_current_record env t p)).1]
      rw [show (item_current_record env t p).completed_tax_codes =
        p.completed_tax_codes from rfl]
      rw [contains_append_singleton _ _ _ hne]

/-- The per-item loop only appends to `all_downloaded_files`. -/
theorem process_tax_types_final_files (env : BatchEnv) :
    ∀ (ts : List TaxTypeConfig) (p : BatchProgress),
      p.all_downloaded_files <+:
        (process_tax_types env ts p).final.all_downloaded_files := by
  intro ts
  induction ts with
  | nil => intro p; exact List.prefix_rfl
  | cons t rest ih =>
    intro p
    cases hc : p.completed_tax_codes.contains t.code with
    | true => rw [ptt_skip env t rest p hc]; exact ih p
    | false =>
      rw [ptt_go env t rest p hc]
      dsimp only
      exact List.IsPrefix.trans
        ((process_operations_final_spec env t.code
          (operations_to_run t.operation_mode) (item_current_record env t p)).2.2)
        (ih (item_completed_record env t p))

/-- Every checkpoint persisted by the per-item loop satisfies the
`current_tax_code` invariant and extends the initial artifact list. -/
theorem process_tax_types_saves_spec (env : BatchEnv) :
    ∀ (ts : List TaxTypeConfig) (p : BatchProgress),
      ∀ q ∈ (process_tax_types env ts p).saves,
        ckpt_inv q = true ∧
        p.all_downloaded_files <+: q.all_downloaded_files := by
  intro ts
  induction ts with
  | nil => intro p q hq; exact absurd hq (List.not_mem_nil q)
  | cons t rest ih =>
    intro p
    cases hc : p.completed_tax_codes.contains t.code with
    | true => rw [ptt_skip env t rest p hc]; exact ih p
    | false =>
      rw [ptt_go env t rest p hc]
      dsimp only
      intro q hq
      rcases List.mem_cons.mp hq with rfl | hq1
      · refine ⟨?_, List.prefix_rfl⟩
        rw [ckpt_inv_of_some (show (item_current_record env t p).current_tax_code
          = some t.code from rfl)]
        rw [show (item_current_record env t p).completed_tax_codes =
          p.completed_tax_codes from rfl, hc]
        rfl
      rcases List.mem_append.mp hq1 with hq2 | hq3
      · obtain ⟨h1, h2, h3⟩ := process_operations_saves_spec env t.code
          (operations_to_run t.operation_mode) (item_current_record env t p) q hq2
        refine ⟨?_, h3⟩
        rw [ckpt_inv_of_some h2]
        have hcq : q.completed_tax_codes.contains t.code = false := by
          rw [h1]
          exact hc
        rw [hcq]
        rfl
      rcases List.mem_cons.mp hq3 with rfl | hq4
      · refine ⟨ckpt_inv_of_none rfl, ?_⟩
        exact (process_operations_final_spec env t.code
          (operations_to_run t.operation_mode) (item_current_record env t p)).2.2
      · obtain ⟨h1, h2⟩ := ih (item_completed_record env t p) q hq4
        refine ⟨h1, List.IsPrefix.trans ?_ h2⟩
        exact (process_operations_final_spec env t.code
          (operations_to_run t.operation_mode) (item_current_record env t p)).2.2

/-- The last record of input-then-saves is the per-item loop's final
record. -/
theorem process_tax_types_getLast (env : BatchEnv) :
    ∀ (ts : List TaxTypeConfig) (p : BatchProgress),
      (p :: (process_tax_types env ts p).saves).getLast? =
        some (process_tax_types env ts p).final := by
  intro ts
  induction ts with
  | nil => intro p; rfl
  | cons t rest ih =>
    intro p
    cases hc : p.completed_tax_codes.contains t.code with
    | true => rw [ptt_skip env t rest p hc]; exact ih p
    | false =>
      rw [ptt_go env t rest p hc]
      dsimp only
      rw [List.getLast?_cons_cons,
        show item_current_record env t p ::
          ((process_operations env t.code (operations_to_run t.operation_mode)
             (item_current_record env t p)).saves ++
           item_completed_record env t p ::
             (process_tax_types env rest (item_completed_record env t p)).saves) =
          (item_current_record env t p ::
            (process_operations env t.code (operations_to_run t.operation_mode)
              (item_current_record env t p)).saves) ++
           item_completed_record env t p ::
             (process_tax_types env rest (item_completed_record env t p)).saves
          from (List.cons_append _ _ _).symm,
        List.getLast?_append_cons]
      exact ih (item_completed_record env t p)

/-- Consecutive checkpoints of the per-item loop never lose completed
codes. -/
theorem process_tax_types_chain (env : BatchEnv) :
    ∀ (ts : List TaxTypeConfig) (p : BatchProgress),
      List.Chain' completed_grows (p :: (process_tax_types env ts p).saves) := by
  intro ts
  induction ts with
  | nil => intro p; exact List.chain'_singleton p
  | cons t rest ih =>
    intro p
    cases hc : p.completed_tax_codes.contains t.code with
    | true => rw [ptt_skip env t rest p hc]; exact ih p
    | false =>
      rw [ptt_go env t rest p hc]
      dsimp only
      rw [show p :: item_current_record env t p ::
          ((process_operations env t.code (operations_to_run t.operation_mode)
             (item_current_record env t p)).saves ++
           item_completed_record env t p ::
             (process_tax_types env rest (item_completed_record env t p)).saves) =
          (p :: item_current_record env t p ::
            (process_operations env t.code (operations_to_run t.operation_mode)
              (item_current_record env t p)).saves) ++
           (item_completed_record env t p ::
             (process_tax_types env rest (item_completed_record env t p)).saves)
          from by rw [List.cons_append, List.cons_append]]
      apply List.Chain'.append
      · exact List.chain'_cons.mpr ⟨List.prefix_rfl,
          process_operations_chain env t.code (operations_to_run t.operation_mode)
            (item_current_record env t p)⟩
      · exact ih (item_completed_record env t p)
      · intro x hx y hy
        rw [List.getLast?_cons_cons, process_operations_getLast env t.code
          (operations_to_run t.operation_mode) (item_current_record env t p)]
          at hx
        have hx' := Option.some.inj (Option.mem_def.mp hx)
        have hy' := Option.some.inj (Option.mem_def.mp hy)
        rw [← hx', ← hy']
        exact List.prefix_append _ _

/-- The per-item loop's final record still satisfies the `current_tax_code`
invariant when its input did. -/
theorem process_tax_types_inv_final (env : BatchEnv) :
    ∀ (ts : List TaxTypeConfig) (p : BatchProgress), ckpt_inv p = true →
      ckpt_inv (process_tax_types env ts p).final = true := by
  intro ts
  induction ts with
  | nil => intro p h; exact h
  | cons t rest ih =>
    intro p h
    cases hc : p.completed_tax_codes.contains t.code with
    | true => rw [ptt_skip env t rest p hc]; exact ih p h
    | false =>
      rw [ptt_go env t rest p hc]
      exact ih (item_completed_record env t p) (ckpt_inv_of_none rfl)

theorem tax_types_codes_nodup : (TAX_TYPES.map (fun t => t.code)).Nodup := by
  decide

/-- Reduction: failed validation short-circuits the whole batch call. -/
theorem scrape_batch_invalid (env : BatchEnv)
    (cuit_login clave cuit_target fecha_desde fecha_hasta : String)
    (resume : Option String)
    (hv : (validar_rango_fecha fecha_desde fecha_hasta).1 = false) :
    scrape_mis_retenciones_batch env cuit_login clave cuit_target fecha_desde
        fecha_hasta resume =
      ⟨.error (validar_rango_fecha fecha_desde fecha_hasta).2, [], none,
       false, []⟩ := by
  rw [scrape_mis_retenciones_batch, hv]
  rfl

/-- Reduction: successful validation hands over to the main body. -/
theorem scrape_batch_valid (env : BatchEnv)
    (cuit_login clave cuit_target fecha_desde fecha_hasta : String)
    (resume : Option String)
    (hv : (validar_rango_fecha fecha_desde fecha_hasta).1 = true) :
    scrape_mis_retenciones_batch env cuit_login clave cuit_target fecha_desde
        fecha_hasta resume =
      scrape_batch_main env cuit_login cuit_target fecha_desde fecha_hasta
        resume := by
  rw [scrape_mis_retenciones_batch, hv]
  rfl

theorem batch_initial_of_load_some (env : BatchEnv)
    (cuit_login cuit_target fecha_desde fecha_hasta sid : String)
    (p₀ : BatchProgress) (h : env.load sid = some p₀) :
    batch_initial_progress env cuit_login cuit_target fecha_desde fecha_hasta
      (some sid) = (p₀, []) := by
  simp [batch_initial_progress, h]

theorem batch_initial_of_load_none (env : BatchEnv)
    (cuit_login cuit_target fecha_desde fecha_hasta sid : String)
    (h : env.load sid = none) :
    batch_initial_progress env cuit_login cuit_target fecha_desde fecha_hasta
      (some sid) =
      (persist env (fresh_progress env cuit_login cuit_target fecha_desde
        fecha_hasta),
       [persist env (fresh_progress env cuit_login cuit_target fecha_desde
        fecha_hasta)]) := by
  simp [batch_initial_progress, h]

theorem scrape_batch_main_login_fail (env : BatchEnv)
    (cuit_login cuit_target fecha_desde fecha_hasta : String)
    (resume : Option String) (h : env.loginOk = false) :
    scrape_batch_main env cuit_login cuit_target fecha_desde fecha_hasta
        resume =
      ⟨.error "login",
       (batch_initial_progress env cuit_login cuit_target fecha_desde
          fecha_hasta resume).2 ++
         [batch_error_record env (batch_initial_progress env cuit_login
            cuit_target fecha_desde fecha_hasta resume).1],
       some (batch_initial_progress env cuit_login cuit_target fecha_desde
          fecha_hasta resume).1,
       true, []⟩ := by
  rw [scrape_batch_main, h]
  rfl

theorem scrape_batch_main_login_ok (env : BatchEnv)
    (cuit_login cuit_target fecha_desde fecha_hasta : String)
    (resume : Option String) (h : env.loginOk = true) :
    scrape_batch_main env cuit_login cuit_target fecha_desde fecha_hasta
        resume =
      ⟨.ok ⟨(process_tax_types env TAX_TYPES (batch_initial_progress env
              cuit_login cuit_target fecha_desde fecha_hasta
              resume).1).final.session_id,
            (batch_completed_record env (process_tax_types env TAX_TYPES
              (batch_initial_progress env cuit_login cuit_target fecha_desde
                fecha_hasta resume).1).final).all_downloaded_files,
            (batch_completed_record env (process_tax_types env TAX_TYPES
              (batch_initial_progress env cuit_login cuit_target fecha_desde
                fecha_hasta resume).1).final).completed_tax_codes.length,
            TAX_TYPES.length⟩,
       (batch_initial_progress env cuit_login cuit_target fecha_desde
          fecha_hasta resume).2 ++
         (process_tax_types env TAX_TYPES (batch_initial_progress env
            cuit_login cuit_target fecha_desde fecha_hasta
            resume).1).saves ++
         [batch_completed_record env (process_tax_types env TAX_TYPES
            (batch_initial_progress env cuit_login cuit_target fecha_desde
              fecha_hasta resume).1).final],
       some (batch_initial_progress env cuit_login cuit_target fecha_desde
          fecha_hasta resume).1,
       true,
       (process_tax_types env TAX_TYPES (batch_initial_progress env
          cuit_login cuit_target fecha_desde fecha_hasta
          resume).1).processed⟩ := by
  rw [scrape_batch_main, h]
  rfl

/-- C1: a batch run resumed from a checkpoint processes, in original
`TAX_TYPES` catalog order, exactly the codes not in the checkpoint's
`completed_tax_codes` (skipping every completed one); the final persisted
record's completed set is the checkpoint's completed codes extended by the
processed ones (a superset of the set before the crash), and the checkpoint's
`all_downloaded_files` list is a prefix of every persisted record's list —
only appended to, no collected artifact path lost. -/
theorem c1_resume_processes_exactly_incomplete (env : BatchEnv)
    (cuit_login clave cuit_target fecha_desde fecha_hasta sid : String)
    (p₀ : BatchProgress) (hload : env.load sid = some p₀)
    (hlogin : env.loginOk = true)
    (hval : (validar_rango_fecha fecha_desde fecha_hasta).1 = true) :
    (scrape_mis_retenciones_batch env cuit_login clave cuit_target fecha_desde
        fecha_hasta (some sid)).processed =
      (TAX_TYPES.filter
        (fun t => !(p₀.completed_tax_codes.contains t.code))).map
        (fun t => t.code) ∧
    (∃ pc, (scrape_mis_retenciones_batch env cuit_login clave cuit_target
          fecha_desde fecha_hasta (some sid)).saves.getLast? = some pc ∧
      pc.completed_tax_codes = p₀.completed_tax_codes ++
        (scrape_mis_retenciones_batch env cuit_login clave cuit_target
          fecha_desde fecha_hasta (some sid)).processed ∧
      p₀.all_downloaded_files <+: pc.all_downloaded_files) ∧
    (∀ q ∈ (scrape_mis_retenciones_batch env cuit_login clave cuit_target
        fecha_desde fecha_hasta (some sid)).saves,
      p₀.all_downloaded_files <+: q.all_downloaded_files) := by
  rw [scrape_batch_valid env cuit_login clave cuit_target fecha_desde
        fecha_hasta (some sid) hval,
      scrape_batch_main_login_ok env cuit_login cuit_target fecha_desde
        fecha_hasta (some sid) hlogin,
      batch_initial_of_load_some env cuit_login cuit_target fecha_desde
        fecha_hasta sid p₀ hload]
  dsimp only
  refine ⟨process_tax_types_processed env TAX_TYPES p₀ tax_types_codes_nodup,
    ⟨batch_completed_record env (process_tax_types env TAX_TYPES p₀).final,
     ?_, ?_, ?_⟩, ?_⟩
  · exact List.getLast?_concat _
  · exact process_tax_types_final_completed env TAX_TYPES p₀
  · exact process_tax_types_final_files env TAX_TYPES p₀
  · intro q hq
    rcases List.mem_append.mp hq with hq1 | hq2
    · rw [List.nil_append] at hq1
      exact (process_tax_types_saves_spec env TAX_TYPES p₀ q hq1).2
    · rw [List.mem_singleton] at hq2
      subst hq2
      exact process_tax_types_final_files env TAX_TYPES p₀

theorem c1_witness :
    (scrape_mis_retenciones_batch c1_env "cl" "cv" "ct" "01/01/2024"
        "31/12/2024" (some "s0")).processed =
      (TAX_TYPES.filter
        (fun t => !(c1_p0.completed_tax_codes.contains t.code))).map
        (fun t => t.code) ∧
    (∃ pc, (scrape_mis_retenciones_batch c1_env "cl" "cv" "ct" "01/01/2024"
          "31/12/2024" (some "s0")).saves.getLast? = some pc ∧
      pc.completed_tax_codes = c1_p0.completed_tax_codes ++
        (scrape_mis_retenciones_batch c1_env "cl" "cv" "ct" "01/01/2024"
          "31/12/2024" (some "s0")).processed ∧
      c1_p0.all_downloaded_files <+: pc.all_downloaded_files) ∧
    (∀ q ∈ (scrape_mis_retenciones_batch c1_env "cl" "cv" "ct" "01/01/2024"
        "31/12/2024" (some "s0")).saves,
      c1_p0.all_downloaded_files <+: q.all_downloaded_files) :=
  c1_resume_processes_exactly_incomplete c1_env "cl" "cv" "ct" "01/01/2024"
    "31/12/2024" "s0" c1_p0 rfl rfl (by decide)

/-- C2 counterexample: `load_checkpoint` only fails when the file is absent or
unreadable — the batch entry point never checks the loaded record's `status`.
Resuming a session whose checkpoint has the terminal status `"error"` (not
`"in_progress"`) does NOT fall back to a fresh session: the loaded record
itself is resumed (its old `session_id` flows into the result), contradicting
the claimed status check. -/
theorem c2_counterexample :
    c2_p0.status ≠ "in_progress" ∧
    (scrape_mis_retenciones_batch c2_env "cl" "cv" "ct" "01/01/2024"
        "31/12/2024" (some "s2")).initialProgress = some c2_p0 ∧
    (scrape_mis_retenciones_batch c2_env "cl" "cv" "ct" "01/01/2024"
        "31/12/2024" (some "s2")).initialProgress ≠
      some (persist c2_env (fresh_progress c2_env "cl" "ct" "01/01/2024"
        "31/12/2024")) ∧
    (match (scrape_mis_retenciones_batch c2_env "cl" "cv" "ct" "01/01/2024"
        "31/12/2024" (some "s2")).result with
     | Except.ok r => r.session_id
     | Except.error _ => "") = "oldsess" := by
  refine ⟨by decide, by decide, by decide, by decide⟩

/-- C2 (amended): with a `resume_session_id`, the batch call loads that
session's checkpoint; only when the load fails (record absent or unreadable)
does it report and fall back to a fresh session (new id, empty progress,
persisted immediately); a successfully loaded record is resumed as-is,
regardless of its `status`. -/
theorem c2_fallback_only_when_load_fails (env : BatchEnv)
    (cuit_login clave cuit_target fecha_desde fecha_hasta sid : String)
    (hval : (validar_rango_fecha fecha_desde fecha_hasta).1 = true) :
    (env.load sid = none →
      (scrape_mis_retenciones_batch env cuit_login clave cuit_target
          fecha_desde fecha_hasta (some sid)).initialProgress =
        some (persist env (fresh_progress env cuit_login cuit_target
          fecha_desde fecha_hasta)) ∧
      (scrape_mis_retenciones_batch env cuit_login clave cuit_target
          fecha_desde fecha_hasta (some sid)).saves.head? =
        some (persist env (fresh_progress env cuit_login cuit_target
          fecha_desde fecha_hasta))) ∧
    (∀ p₀, env.load sid = some p₀ →
      (scrape_mis_retenciones_batch env cuit_login clave cuit_target
          fecha_desde fecha_hasta (some sid)).initialProgress = some p₀) := by
  rw [scrape_batch_valid env cuit_login clave cuit_target fecha_desde
    fecha_hasta (some sid) hval]
  constructor
  · intro hnone
    cases hl : env.loginOk with
    | false =>
      rw [scrape_batch_main_login_fail env cuit_login cuit_target fecha_desde
          fecha_hasta (some sid) hl,
        batch_initial_of_load_none env cuit_login cuit_target fecha_desde
          fecha_hasta sid hnone]
      exact ⟨rfl, rfl⟩
    | true =>
      rw [scrape_batch_main_login_ok env cuit_login cuit_target fecha_desde
          fecha_hasta (some sid) hl,
        batch_initial_of_load_none env cuit_login cuit_target fecha_desde
          fecha_hasta sid hnone]
      exact ⟨rfl, rfl⟩
  · intro p₀ hsome
    cases hl : env.loginOk with
    | false =>
      rw [scrape_batch_main_login_fail env cuit_login cuit_target fecha_desde
          fecha_hasta (some sid) hl,
        batch_initial_of_load_some env cuit_login cuit_target fecha_desde
          fecha_hasta sid p₀ hsome]
    | true =>
      rw [scrape_batch_main_login_ok env cuit_login cuit_target fecha_desde
          fecha_hasta (some sid) hl,
        batch_initial_of_load_some env cuit_login cuit_target fecha_desde
          fecha_hasta sid p₀ hsome]

theorem c2_witness :
    ((scrape_mis_retenciones_batch c2_env_none "cl" "cv" "ct" "01/01/2024"
        "31/12/2024" (some "nosuch")).initialProgress =
      some (persist c2_env_none (fresh_progress c2_env_none "cl" "ct"
        "01/01/2024" "31/12/2024")) ∧
     (scrape_mis_retenciones_batch c2_env_none "cl" "cv" "ct" "01/01/2024"
        "31/12/2024" (some "nosuch")).saves.head? =
      some (persist c2_env_none (fresh_progress c2_env_none "cl" "ct"
        "01/01/2024" "31/12/2024"))) ∧
    (scrape_mis_retenciones_batch c2_env "cl" "cv" "ct" "01/01/2024"
        "31/12/2024" (some "s2")).initialProgress = some c2_p0 :=
  ⟨(c2_fallback_only_when_load_fails c2_env_none "cl" "cv" "ct" "01/01/2024"
      "31/12/2024" "nosuch" (by decide)).1 rfl,
   (c2_fallback_only_when_load_fails c2_env "cl" "cv" "ct" "01/01/2024"
      "31/12/2024" "s2" (by decide)).2 c2_p0 rfl⟩

/-- C8: during any batch run whose checkpoint store only holds records
satisfying the `current_tax_code` invariant (in particular any fresh run, or a
resume of a record this orchestrator wrote), every persisted checkpoint has
`current_tax_code` either none or a code not in its `completed_tax_codes`, and
between consecutive persists `completed_tax_codes` never loses an element — it
only grows (each list is a prefix of the next). -/
theorem c8_every_persist_keeps_invariants (env : BatchEnv)
    (cuit_login clave cuit_target fecha_desde fecha_hasta : String)
    (resume : Option String)
    (hstore : ∀ sid p₀, env.load sid = some p₀ → ckpt_inv p₀ = true) :
    (∀ q ∈ (scrape_mis_retenciones_batch env cuit_login clave cuit_target
        fecha_desde fecha_hasta resume).saves, ckpt_inv q = true) ∧
    List.Chain' completed_grows
      (scrape_mis_retenciones_batch env cuit_login clave cuit_target
        fecha_desde fecha_hasta resume).saves := by
  cases hval : (validar_rango_fecha fecha_desde fecha_hasta).1 with
  | false =>
    rw [scrape_batch_invalid env cuit_login clave cuit_target fecha_desde
      fecha_hasta resume hval]
    exact ⟨fun q hq => absurd hq (List.not_mem_nil q), List.chain'_nil⟩
  | true =>
    rw [scrape_batch_valid env cuit_login clave cuit_target fecha_desde
      fecha_hasta resume hval]
    have hcases : (∃ p₀, batch_initial_progress env cuit_login cuit_target
          fecha_desde fecha_hasta resume = (p₀, []) ∧ ckpt_inv p₀ = true) ∨
        batch_initial_progress env cuit_login cuit_target fecha_desde
          fecha_hasta resume =
          (persist env (fresh_progress env cuit_login cuit_target fecha_desde
            fecha_hasta),
           [persist env (fresh_progress env cuit_login cuit_target fecha_desde
            fecha_hasta)]) := by
      cases resume with
      | none => exact Or.inr (by simp [batch_initial_progress])
      | some sid =>
        cases hload : env.load sid with
        | none =>
          exact Or.inr (batch_initial_of_load_none env cuit_login cuit_target
            fecha_desde fecha_hasta sid hload)
        | some p₀ =>
          exact Or.inl ⟨p₀, batch_initial_of_load_some env cuit_login
            cuit_target fecha_desde fecha_hasta sid p₀ hload,
            hstore sid p₀ hload⟩
    cases hl : env.loginOk with
    | false =>
      rw [scrape_batch_main_login_fail env cuit_login cuit_target fecha_desde
        fecha_hasta resume hl]
      rcases hcases with ⟨p₀, heq, hinv⟩ | heq
      · rw [heq]
        dsimp only
        constructor
        · intro q hq
          rw [List.nil_append, List.mem_singleton] at hq
          subst hq
          exact hinv
        · rw [List.nil_append]
          exact List.chain'_singleton _
      · rw [heq]
        dsimp only
        constructor
        · intro q hq
          rw [List.singleton_append] at hq
          rcases List.mem_cons.mp hq with rfl | hq1
          · rfl
          · rw [List.mem_singleton] at hq1
            subst hq1
            rfl
        · rw [List.singleton_append]
          exact List.chain'_cons.mpr ⟨List.prefix_rfl, List.chain'_singleton _⟩
    | true =>
      rw [scrape_batch_main_login_ok env cuit_login cuit_target fecha_desde
        fecha_hasta resume hl]
      rcases hcases with ⟨p₀, heq, hinv⟩ | heq
      · rw [heq]
        dsimp only
        constructor
        · intro q hq
          rw [List.nil_append] at hq
          rcases List.mem_append.mp hq with hq1 | hq2
          · exact (process_tax_types_saves_spec env TAX_TYPES p₀ q hq1).1
          · rw [List.mem_singleton] at hq2
            subst hq2
            exact process_tax_types_inv_final env TAX_TYPES p₀ hinv
        · rw [List.nil_append]
          have hch : List.Chain' completed_grows
              ((p₀ :: (process_tax_types env TAX_TYPES p₀).saves) ++
               [batch_completed_record env
                 (process_tax_types env TAX_TYPES p₀).final]) := by
            apply List.Chain'.append (process_tax_types_chain env TAX_TYPES p₀)
              (List.chain'_singleton _)
            intro x hx y hy
            rw [process_tax_types_getLast env TAX_TYPES p₀] at hx
            have hx' := Option.some.inj (Option.mem_def.mp hx)
            have hy' := Option.some.inj (Option.mem_def.mp hy)
            rw [← hx', ← hy']
            exact List.prefix_rfl
          rw [List.cons_append] at hch
          exact hch.tail
      · rw [heq]
        dsimp only
        constructor
        · intro q hq
          rcases List.mem_append.mp hq with hq1 | hq2
          · rw [List.singleton_append] at hq1
            rcases List.mem_cons.mp hq1 with rfl | hq3
            · rfl
            · exact (process_tax_types_saves_spec env TAX_TYPES _ q hq3).1
          · rw [List.mem_singleton] at hq2
            subst hq2
            exact process_tax_types_inv_final env TAX_TYPES _ rfl
        · rw [List.singleton_append]
          apply List.Chain'.append
            (process_tax_types_chain env TAX_TYPES _)
            (List.chain'_singleton _)
          intro x hx y hy
          rw [process_tax_types_getLast env TAX_TYPES _] at hx
          have hx' := Option.some.inj (Option.mem_def.mp hx)
          have hy' := Option.some.inj (Option.mem_def.mp hy)
          rw [← hx', ← hy']
          exact List.prefix_rfl

theorem c8_witness :
    (∀ q ∈ (scrape_mis_retenciones_batch c8_env "cl" "cv" "ct" "01/01/2024"
        "31/12/2024" none).saves, ckpt_inv q = true) ∧
    List.Chain' completed_grows
      (scrape_mis_retenciones_batch c8_env "cl" "cv" "ct" "01/01/2024"
        "31/12/2024" none).saves :=
  c8_every_persist_keeps_invariants c8_env "cl" "cv" "ct" "01/01/2024"
    "31/12/2024" none (fun _ _ h => Option.noConfusion h)

/-- C9 counterexample: `find_latest_checkpoint` only returns records whose
status is `"in_progress"`.  When the most recent checkpoint on disk has status
`"error"`, the function does NOT return it (here: single errored record →
`none`), contradicting the claim that the errored session is what the
"resume latest session" entry point offers. -/
theorem c9_counterexample :
    c9_perr.status = "error" ∧
    find_latest_checkpoint [some c9_perr] = none ∧
    find_latest_checkpoint [some c9_perr] ≠ some c9_perr := by
  refine ⟨rfl, rfl, ?_⟩
  intro h
  exact Option.noConfusion h

/-- C9 (amended): a checkpoint marked `"error"` on unrecoverable failure does
preserve all progress (the persisted error record keeps the completed codes,
artifact paths and current key of the in-memory record), but it is NOT
selectable through `find_latest_checkpoint`: that entry point returns only
records whose status is `"in_progress"` (the most recent such one), skipping
errored and completed records. -/
theorem c9_error_preserved_but_not_selected :
    (∀ (records : List (Option BatchProgress)) (p : BatchProgress),
       find_latest_checkpoint records = some p →
       p.status = "in_progress" ∧ some p ∈ records) ∧
    (∀ (env : BatchEnv)
       (cuit_login clave cuit_target fecha_desde fecha_hasta sid : String)
       (p₀ : BatchProgress),
       (validar_rango_fecha fecha_desde fecha_hasta).1 = true →
       env.load sid = some p₀ → env.loginOk = false →
       ∃ pe, (scrape_mis_retenciones_batch env cuit_login clave cuit_target
           fecha_desde fecha_hasta (some sid)).saves = [pe] ∧
         pe.status = "error" ∧
         pe.completed_tax_codes = p₀.completed_tax_codes ∧
         pe.all_downloaded_files = p₀.all_downloaded_files ∧
         pe.current_tax_code = p₀.current_tax_code) := by
  constructor
  · intro records
    induction records with
    | nil =>
      intro p h
      rw [find_latest_checkpoint] at h
      exact absurd h Option.noConfusion
    | cons r rest ih =>
      intro p h
      cases r with
      | none =>
        rw [find_latest_checkpoint] at h
        obtain ⟨h1, h2⟩ := ih p h
        exact ⟨h1, List.mem_cons_of_mem _ h2⟩
      | some progress =>
        rw [find_latest_checkpoint] at h
        by_cases hs : progress.status = "in_progress"
        · rw [if_pos hs] at h
          obtain rfl := Option.some.inj h
          exact ⟨hs, List.mem_cons_self _ _⟩
        · rw [if_neg hs] at h
          obtain ⟨h1, h2⟩ := ih p h
          exact ⟨h1, List.mem_cons_of_mem _ h2⟩
  · intro env cuit_login clave cuit_target fecha_desde fecha_hasta sid p₀
      hval hload hl
    rw [scrape_batch_valid env cuit_login clave cuit_target fecha_desde
        fecha_hasta (some sid) hval,
      scrape_batch_main_login_fail env cuit_login cuit_target fecha_desde
        fecha_hasta (some sid) hl,
      batch_initial_of_load_some env cuit_login cuit_target fecha_desde
        fecha_hasta sid p₀ hload]
    exact ⟨batch_error_record env p₀, rfl, rfl, rfl, rfl, rfl⟩

theorem c9_witness :
    (c9_pin.status = "in_progress" ∧ some c9_pin ∈ [some c9_pin]) ∧
    (∃ pe, (scrape_mis_retenciones_batch c9_env "cl" "cv" "ct" "01/01/2024"
        "31/12/2024" (some "s9")).saves = [pe] ∧
      pe.status = "error" ∧
      pe.completed_tax_codes = c9_perr.completed_tax_codes ∧
      pe.all_downloaded_files = c9_perr.all_downloaded_files ∧
      pe.current_tax_code = c9_perr.current_tax_code) :=
  ⟨c9_error_preserved_but_not_selected.1 [some c9_pin] c9_pin (by decide),
   c9_error_preserved_but_not_selected.2 c9_env "cl" "cv" "ct" "01/01/2024"
     "31/12/2024" "s9" c9_perr (by decide) rfl rfl⟩
